import Mathlib

/-!
# joystick_rgb_display.c

A shallow embedding of `src/joystick_rgb_display.c` (RP2040, 32-bit `int`):
the interrupt handler `gpio_irq_handler` as a function on the volatile globals,
and one pass of the `while (true)` body of `main` as a function from the
values returned by its loads of the volatile globals and the two ADC samples
to the PWM levels, the marker position and the list of display calls
(`main_loop_pass`); `main_loop_body` is the pass during which no interrupt
changes the globals, so that every load sees the same value.

Machine integers are `Nat`/`Int` with the reduction made explicit at every
`int` operation (`wrap_int`) and at every narrowing store (`to_uint8`,
`to_uint16`, `to_uint32`).
-/

namespace JoystickRgbDisplay

/-! ## C integer arithmetic -/

/-- Reduction of a mathematical integer to a 32-bit two's complement `int`. -/
def wrap_int (x : Int) : Int := (x + 2147483648) % 4294967296 - 2147483648

/-- Conversion to `uint8_t`. -/
def to_uint8 (x : Int) : Nat := (x % 256).toNat

/-- Conversion to `uint16_t`. -/
def to_uint16 (x : Int) : Nat := (x % 65536).toNat

/-- Conversion to `uint32_t`. -/
def to_uint32 (x : Int) : Nat := (x % 4294967296).toNat

/-- The `int` operation `a + b`. -/
def int_add (a b : Int) : Int := wrap_int (a + b)

/-- The `int` operation `a - b`. -/
def int_sub (a b : Int) : Int := wrap_int (a - b)

/-- The `int` operation `a * b`. -/
def int_mul (a b : Int) : Int := wrap_int (a * b)

/-- The `int` operation `a / b` (quotient truncated toward zero). -/
def int_div (a b : Int) : Int := wrap_int (Int.tdiv a b)

/-- The `int` operation `a % b` (remainder with the sign of `a`). -/
def int_mod (a b : Int) : Int := wrap_int (Int.tmod a b)

/-- The library function `abs` of `stdlib.h` on `int`. -/
def c_abs (a : Int) : Int := wrap_int |a|

/-! ## Constants of the source -/

def JOYSTICK_PB : Nat := 22
def BOTAO_A : Nat := 5
def BOTAO_B : Nat := 6
def PWM_WRAP : Int := 4095
def DEBOUNCE_DELAY : Nat := 200
def NUM_BORDER_STYLES : Int := 2

/-- The event bit of a falling edge, `GPIO_IRQ_EDGE_FALL = 0x4` in the Pico SDK
header `hardware/gpio.h`. -/
def GPIO_IRQ_EDGE_FALL : Nat := 4

/-! ## Globals and the interrupt handler -/

/-- The five `volatile` globals of the source (lines 59..63). -/
structure Globals where
  last_debounce_joystick : Nat
  last_debounce_botaoA : Nat
  toggle_pwm : Bool
  led_verde_on : Bool
  border_style : Nat
deriving DecidableEq

/-- The initialisers of the globals (lines 59..63). -/
def initial_globals : Globals :=
  { last_debounce_joystick := 0
    last_debounce_botaoA := 0
    toggle_pwm := true
    led_verde_on := false
    border_style := 0 }

/-- What one call of `gpio_irq_handler` leaves behind: the globals, and whether
`reset_usb_boot(0, 0)` was called (the call does not come back). -/
structure IrqResult where
  globals : Globals
  reset_usb_boot : Bool
deriving DecidableEq

/-- The handler `gpio_irq_handler(gpio, events)` (lines 66..93). `current_time` is
the value of `to_ms_since_boot(get_absolute_time())` read at line 73, a
`uint32_t`. -/
def gpio_irq_handler (gpio events current_time : Nat) (g : Globals) : IrqResult :=
  if gpio = BOTAO_B ∧ events &&& GPIO_IRQ_EDGE_FALL ≠ 0 then
    { globals := g, reset_usb_boot := true }
  else
    -- lines 86..92, reached when the joystick block did not return
    let botaoA_block (g : Globals) : Globals :=
      if gpio = BOTAO_A ∧ events &&& GPIO_IRQ_EDGE_FALL ≠ 0 then
        if to_uint32 ((current_time : Int) - (g.last_debounce_botaoA : Int)) < DEBOUNCE_DELAY then
          g
        else
          { g with
            last_debounce_botaoA := current_time
            toggle_pwm := !g.toggle_pwm }
      else g
    if gpio = JOYSTICK_PB ∧ events &&& GPIO_IRQ_EDGE_FALL ≠ 0 then
      if to_uint32 ((current_time : Int) - (g.last_debounce_joystick : Int)) < DEBOUNCE_DELAY then
        { globals := g, reset_usb_boot := false }
      else
        { globals := botaoA_block
            { g with
              last_debounce_joystick := current_time
              led_verde_on := !g.led_verde_on
              border_style := to_uint8 (int_mod (int_add (g.border_style : Int) 1) NUM_BORDER_STYLES) }
          reset_usb_boot := false }
    else
      { globals := botaoA_block g, reset_usb_boot := false }

/-! ## One pass of the main loop -/

/-- A call into the display library `lib/ssd1306.h`, with the arguments as
written at the call site. -/
inductive DisplayCall where
  | ssd1306_fill (value : Bool)
  | ssd1306_rect (top left width height : Int) (value fill : Bool)
  | ssd1306_send_data
deriving DecidableEq

/-- What one pass of the loop body hands to the peripherals: the three levels
given to `pwm_set_gpio_level`, the marker coordinates, and the display calls in
program order. -/
structure LoopOutput where
  pwm_red : Nat
  pwm_blue : Nat
  pwm_green : Nat
  pos_x : Nat
  pos_y : Nat
  display : List DisplayCall
deriving DecidableEq

/-- The body of `while (true)` in `main` (lines 168..240). `WIDTH` and `HEIGHT`
are the macros of `lib/ssd1306.h`, taken as parameters; `adc_value_x` and
`adc_value_y` are the two results of `adc_read()`. The globals are `volatile`
and interrupts stay enabled, so each load is an input of its own:
`led_verde_on_204` and `toggle_pwm_207` are the values loaded at lines 204 and
207, `border_style_227` the value loaded by the test of line 227 and
`border_style_230` the value loaded by the test of line 230, which is a second
load and is made only when the first test fails. -/
def main_loop_pass (WIDTH HEIGHT : Int) (led_verde_on_204 toggle_pwm_207 : Bool)
    (border_style_227 border_style_230 : Nat) (adc_value_x adc_value_y : Nat) : LoopOutput :=
  let DEADZONE : Int := 300
  let pwm_red : Nat :=
    if c_abs (int_sub adc_value_x 2048) > DEADZONE then
      if (adc_value_x : Int) < int_sub 2048 DEADZONE then
        to_uint16 (int_div (int_mul (int_sub (int_sub 2048 DEADZONE) adc_value_x) PWM_WRAP) 2048)
      else if (adc_value_x : Int) > int_add 2048 DEADZONE then
        to_uint16 (int_div (int_mul (int_sub adc_value_x (int_add 2048 DEADZONE)) PWM_WRAP) 2048)
      else 0
    else 0
  let pwm_blue : Nat :=
    if c_abs (int_sub adc_value_y 2048) > DEADZONE then
      if (adc_value_y : Int) < int_sub 2048 DEADZONE then
        to_uint16 (int_div (int_mul (int_sub (int_sub 2048 DEADZONE) adc_value_y) PWM_WRAP) 2048)
      else if (adc_value_y : Int) > int_add 2048 DEADZONE then
        to_uint16 (int_div (int_mul (int_sub adc_value_y (int_add 2048 DEADZONE)) PWM_WRAP) 2048)
      else 0
    else 0
  let pwm_green : Nat := if led_verde_on_204 then to_uint16 PWM_WRAP else 0
  let pos_x : Nat := to_uint8 (int_div (int_mul adc_value_y (int_sub WIDTH 8)) 4095)
  let pos_y : Nat := to_uint8 (int_div (int_mul (int_sub 4095 adc_value_x) (int_sub HEIGHT 8)) 4095)
  let border : List DisplayCall :=
    if border_style_227 = 0 then
      [DisplayCall.ssd1306_rect 0 0 WIDTH HEIGHT true false]
    else if border_style_230 = 1 then
      [DisplayCall.ssd1306_rect 0 0 WIDTH HEIGHT true false,
       DisplayCall.ssd1306_rect 2 2 (int_sub WIDTH 4) (int_sub HEIGHT 4) true false]
    else []
  { pwm_red := if !toggle_pwm_207 then 0 else pwm_red
    pwm_blue := if !toggle_pwm_207 then 0 else pwm_blue
    pwm_green := if !toggle_pwm_207 then 0 else pwm_green
    pos_x := pos_x
    pos_y := pos_y
    display :=
      [DisplayCall.ssd1306_fill false] ++ border ++
      [DisplayCall.ssd1306_rect pos_y pos_x 8 8 true true, DisplayCall.ssd1306_send_data] }

/-- The pass of the loop body during which no interrupt changes the globals:
every load of `main_loop_pass` returns the field of the one value `g`. -/
def main_loop_body (WIDTH HEIGHT : Int) (g : Globals) (adc_value_x adc_value_y : Nat) :
    LoopOutput :=
  main_loop_pass WIDTH HEIGHT g.led_verde_on g.toggle_pwm g.border_style g.border_style
    adc_value_x adc_value_y

/-! ## The mapping as the specification words it -/

/-- The specification's `mapAxis(raw, center, deadzone, wrap)`: zero inside the
deadzone, otherwise the distance past the deadzone scaled by `wrap / center`,
with the quotient truncated toward zero. -/
def mapAxis (raw center deadzone wrap : Int) : Int :=
  if |raw - center| ≤ deadzone then 0
  else if raw < center - deadzone then Int.tdiv ((center - deadzone - raw) * wrap) center
  else Int.tdiv ((raw - (center + deadzone)) * wrap) center

/-! ## Observations used to state the claims -/

/-- Whether a handler call applied a button effect: a field of the control
state (`toggle_pwm`, `led_verde_on`, `border_style`) differs afterwards. -/
def effect_applied (before after : Globals) : Bool :=
  before.toggle_pwm != after.toggle_pwm || before.led_verde_on != after.led_verde_on ||
    before.border_style != after.border_style

/-- Number of button effects applied while the handler serves a falling edge of
`gpio` at each of the given times, in order. -/
def effects_applied (gpio : Nat) (g : Globals) : List Nat → Nat
  | [] => 0
  | t :: ts =>
    (if effect_applied g (gpio_irq_handler gpio GPIO_IRQ_EDGE_FALL t g).globals then 1 else 0) +
      effects_applied gpio (gpio_irq_handler gpio GPIO_IRQ_EDGE_FALL t g).globals ts

/-- Closed form, in natural numbers, of what the axis block of lines 183..191
(and 194..202) stores for a 12-bit sample. -/
def axis_level (raw : Nat) : Nat :=
  if raw < 1748 then (1748 - raw) * 4095 / 2048
  else if 2348 < raw then (raw - 2348) * 4095 / 2048
  else 0

/-! ## Arithmetic helper lemmas -/

theorem wrap_int_of_range (x : Int) (h1 : -2147483648 ≤ x) (h2 : x < 2147483648) :
    wrap_int x = x := by
  unfold wrap_int; omega

theorem to_uint16_of_range (x : Int) (h1 : 0 ≤ x) (h2 : x < 65536) :
    (to_uint16 x : Int) = x := by
  unfold to_uint16; omega

theorem to_uint8_of_range (x : Int) (h1 : 0 ≤ x) (h2 : x < 256) :
    (to_uint8 x : Int) = x := by
  unfold to_uint8; omega

theorem int_div_of_nonneg (a b : Int) (ha : 0 ≤ a) (hb : 0 < b) (h2 : a < 2147483648) :
    int_div a b = a / b := by
  unfold int_div
  rw [Int.tdiv_eq_ediv ha (le_of_lt hb)]
  apply wrap_int_of_range
  · have := Int.ediv_nonneg ha (le_of_lt hb); omega
  · have := Int.ediv_le_self b ha; omega

theorem axis_block_eq (x : Nat) (hx : x ≤ 4095) :
    (if c_abs (int_sub x 2048) > 300 then
      if (x : Int) < int_sub 2048 300 then
        to_uint16 (int_div (int_mul (int_sub (int_sub 2048 300) x) PWM_WRAP) 2048)
      else if (x : Int) > int_add 2048 300 then
        to_uint16 (int_div (int_mul (int_sub x (int_add 2048 300)) PWM_WRAP) 2048)
      else 0
    else 0) = axis_level x := by
  have e1 : int_sub (x : Int) 2048 = x - 2048 := by
    unfold int_sub; apply wrap_int_of_range <;> omega
  have e2 : int_sub 2048 300 = 1748 := by decide
  have e3 : int_add 2048 300 = 2348 := by decide
  have e4 : c_abs ((x : Int) - 2048) = |(x : Int) - 2048| := by
    unfold c_abs; apply wrap_int_of_range
    · have := abs_nonneg ((x : Int) - 2048); omega
    · have := abs_le.mpr
        (⟨by omega, by omega⟩ : -(2048 : Int) ≤ (x : Int) - 2048 ∧ (x : Int) - 2048 ≤ 2048)
      omega
  rw [e1, e2, e3, e4]
  unfold axis_level
  by_cases h1 : x < 1748
  · have habs : |(x : Int) - 2048| > 300 := by
      rw [abs_of_neg (by omega)]; omega
    have e5 : int_sub 1748 (x : Int) = 1748 - x := by
      unfold int_sub; apply wrap_int_of_range <;> omega
    have e6 : int_mul (1748 - (x : Int)) PWM_WRAP = (1748 - x) * 4095 := by
      unfold int_mul PWM_WRAP; apply wrap_int_of_range <;> omega
    have e7 : int_div ((1748 - (x : Int)) * 4095) 2048 = (1748 - x) * 4095 / 2048 :=
      int_div_of_nonneg _ _ (by omega) (by omega) (by omega)
    have hlt : (x : Int) < 1748 := by omega
    simp only [habs, hlt, h1, if_true, e5, e6, e7]
    have := to_uint16_of_range ((1748 - (x : Int)) * 4095 / 2048) (by omega) (by omega)
    omega
  · by_cases h2 : 2348 < x
    · have habs : |(x : Int) - 2048| > 300 := by
        rw [abs_of_pos (by omega)]; omega
      have e5 : int_sub (x : Int) 2348 = x - 2348 := by
        unfold int_sub; apply wrap_int_of_range <;> omega
      have e6 : int_mul ((x : Int) - 2348) PWM_WRAP = (x - 2348) * 4095 := by
        unfold int_mul PWM_WRAP; apply wrap_int_of_range <;> omega
      have e7 : int_div (((x : Int) - 2348) * 4095) 2048 = (x - 2348) * 4095 / 2048 :=
        int_div_of_nonneg _ _ (by omega) (by omega) (by omega)
      have hlt : ¬ (x : Int) < 1748 := by omega
      have hgt : (x : Int) > 2348 := by omega
      simp only [habs, hlt, hgt, h1, h2, if_true, if_false, e5, e6, e7]
      have := to_uint16_of_range (((x : Int) - 2348) * 4095 / 2048) (by omega) (by omega)
      omega
    · have hlt : ¬ (x : Int) < 1748 := by omega
      have hgt : ¬ (x : Int) > 2348 := by omega
      simp only [hlt, hgt, h1, h2, if_false, ite_self]

theorem pwm_red_eq (W H : Int) (g : Globals) (x y : Nat) (hx : x ≤ 4095) :
    (main_loop_body W H g x y).pwm_red = if g.toggle_pwm then axis_level x else 0 := by
  cases hg : g.toggle_pwm
  · simp [main_loop_body, main_loop_pass, hg]
  · simp only [main_loop_body, main_loop_pass, hg, Bool.not_true, Bool.false_eq_true, if_false, if_true]
    exact axis_block_eq x hx

theorem pwm_blue_eq (W H : Int) (g : Globals) (x y : Nat) (hy : y ≤ 4095) :
    (main_loop_body W H g x y).pwm_blue = if g.toggle_pwm then axis_level y else 0 := by
  cases hg : g.toggle_pwm
  · simp [main_loop_body, main_loop_pass, hg]
  · simp only [main_loop_body, main_loop_pass, hg, Bool.not_true, Bool.false_eq_true, if_false, if_true]
    exact axis_block_eq y hy

theorem mapAxis_eq (raw : Nat) (hraw : raw ≤ 4095) :
    mapAxis raw 2048 300 4095 = axis_level raw := by
  unfold mapAxis axis_level
  by_cases h1 : raw < 1748
  · have habs : ¬ |(raw : Int) - 2048| ≤ 300 := by
      rw [abs_of_neg (by omega)]; omega
    have hlt : (raw : Int) < 2048 - 300 := by omega
    simp only [habs, hlt, h1, if_true, if_false]
    rw [Int.tdiv_eq_ediv (by omega) (by omega)]
    omega
  · by_cases h2 : 2348 < raw
    · have habs : ¬ |(raw : Int) - 2048| ≤ 300 := by
        rw [abs_of_pos (by omega)]; omega
      have hlt : ¬ (raw : Int) < 2048 - 300 := by omega
      simp only [habs, hlt, h1, h2, if_true, if_false]
      rw [Int.tdiv_eq_ediv (by omega) (by omega)]
      omega
    · have habs : |(raw : Int) - 2048| ≤ 300 := abs_le.mpr ⟨by omega, by omega⟩
      simp only [habs, h1, h2, if_true, if_false]
      rfl


/-! ## The handler on a falling edge of each debounced button -/

theorem border_next (b : Nat) (hb : b < 256) :
    to_uint8 (int_mod (int_add (b : Int) 1) NUM_BORDER_STYLES) = (b + 1) % 2 := by
  have e1 : int_add (b : Int) 1 = b + 1 := by
    unfold int_add; apply wrap_int_of_range <;> omega
  have e2 : Int.tmod ((b : Int) + 1) 2 = ((b : Int) + 1) % 2 :=
    Int.tmod_eq_emod (by omega) (by omega)
  have e3 : int_mod ((b : Int) + 1) NUM_BORDER_STYLES = ((b : Int) + 1) % 2 := by
    unfold int_mod NUM_BORDER_STYLES; rw [e2]; apply wrap_int_of_range <;> omega
  rw [e1, e3]
  unfold to_uint8; omega

theorem to_uint32_sub (a b : Nat) (hab : b ≤ a) (ha : a < 4294967296) :
    to_uint32 ((a : Int) - (b : Int)) = a - b := by
  unfold to_uint32; omega

theorem handler_joystick (g : Globals) (events now : Nat)
    (hf : events &&& GPIO_IRQ_EDGE_FALL ≠ 0) :
    gpio_irq_handler JOYSTICK_PB events now g =
      if to_uint32 ((now : Int) - (g.last_debounce_joystick : Int)) < DEBOUNCE_DELAY then
        { globals := g, reset_usb_boot := false }
      else
        { globals :=
            { g with
              last_debounce_joystick := now
              led_verde_on := !g.led_verde_on
              border_style :=
                to_uint8 (int_mod (int_add (g.border_style : Int) 1) NUM_BORDER_STYLES) }
          reset_usb_boot := false } := by
  simp [gpio_irq_handler, JOYSTICK_PB, BOTAO_A, BOTAO_B, hf]

theorem handler_botaoA (g : Globals) (events now : Nat)
    (hf : events &&& GPIO_IRQ_EDGE_FALL ≠ 0) :
    gpio_irq_handler BOTAO_A events now g =
      if to_uint32 ((now : Int) - (g.last_debounce_botaoA : Int)) < DEBOUNCE_DELAY then
        { globals := g, reset_usb_boot := false }
      else
        { globals := { g with last_debounce_botaoA := now, toggle_pwm := !g.toggle_pwm }
          reset_usb_boot := false } := by
  simp [gpio_irq_handler, JOYSTICK_PB, BOTAO_A, BOTAO_B, hf]
  split <;> rfl


/-! ## Closed forms of the marker position at 128 x 64 -/

theorem pos_x_eq (g : Globals) (x y : Nat) (hy : y ≤ 4095) :
    (main_loop_body 128 64 g x y).pos_x = y * 120 / 4095 := by
  simp only [main_loop_body, main_loop_pass]
  have e1 : int_sub 128 8 = 120 := by decide
  have e2 : int_mul (y : Int) 120 = y * 120 := by
    unfold int_mul; apply wrap_int_of_range <;> omega
  have e3 : int_div ((y : Int) * 120) 4095 = y * 120 / 4095 :=
    int_div_of_nonneg _ _ (by omega) (by omega) (by omega)
  rw [e1, e2, e3]
  have := to_uint8_of_range ((y : Int) * 120 / 4095) (by omega) (by omega)
  omega

theorem pos_y_eq (g : Globals) (x y : Nat) (hx : x ≤ 4095) :
    (main_loop_body 128 64 g x y).pos_y = (4095 - x) * 56 / 4095 := by
  simp only [main_loop_body, main_loop_pass]
  have e1 : int_sub 64 8 = 56 := by decide
  have e0 : int_sub 4095 (x : Int) = 4095 - x := by
    unfold int_sub; apply wrap_int_of_range <;> omega
  have e2 : int_mul (4095 - (x : Int)) 56 = (4095 - x) * 56 := by
    unfold int_mul; apply wrap_int_of_range <;> omega
  have e3 : int_div ((4095 - (x : Int)) * 56) 4095 = (4095 - x) * 56 / 4095 :=
    int_div_of_nonneg _ _ (by omega) (by omega) (by omega)
  rw [e1, e0, e2, e3]
  have := to_uint8_of_range ((4095 - (x : Int)) * 56 / 4095) (by omega) (by omega)
  omega

theorem axis_level_le (raw : Nat) (hraw : raw ≤ 4095) : axis_level raw ≤ 3495 := by
  unfold axis_level
  split
  · omega
  · split <;> omega

/-! ## The handler on button B and on events it ignores -/

theorem handler_ignored (g : Globals) (gpio events now : Nat)
    (h : (gpio ≠ JOYSTICK_PB ∧ gpio ≠ BOTAO_A ∧ gpio ≠ BOTAO_B) ∨
      events &&& GPIO_IRQ_EDGE_FALL = 0) :
    gpio_irq_handler gpio events now g = { globals := g, reset_usb_boot := false } := by
  rcases h with ⟨hj, ha, hb⟩ | hf
  · simp [gpio_irq_handler, hj, ha, hb]
  · simp [gpio_irq_handler, hf]

/-! ## The invariant linking the border style to the green LED -/

/-- C1: for every raw sample in [0,4095], with PWM enabled, the red level written
for X = raw and the blue level written for Y = raw both equal the reference
`mapAxis raw 2048 300 4095`, whatever the other sample, the display size and the
remaining globals are; the reference is 0 when |raw - 2048| <= 300,
((1748 - raw) * 4095) / 2048 when raw < 1748 and ((raw - 2348) * 4095) / 2048
when raw > 2348 (truncating division); the value fits `uint16_t` and both
products fit a 32-bit `int`, so neither the store nor the product loses
anything. -/
theorem C1_pwm_levels_refine_mapAxis (WIDTH HEIGHT : Int) (g : Globals) (raw other : Nat)
    (hraw : raw ≤ 4095) (hpwm : g.toggle_pwm = true) :
    ((main_loop_body WIDTH HEIGHT g raw other).pwm_red : Int) = mapAxis raw 2048 300 4095 ∧
    ((main_loop_body WIDTH HEIGHT g other raw).pwm_blue : Int) = mapAxis raw 2048 300 4095 ∧
    (|(raw : Int) - 2048| ≤ 300 → mapAxis raw 2048 300 4095 = 0) ∧
    (raw < 1748 → mapAxis raw 2048 300 4095 = Int.tdiv ((1748 - (raw : Int)) * 4095) 2048) ∧
    (raw > 2348 → mapAxis raw 2048 300 4095 = Int.tdiv (((raw : Int) - 2348) * 4095) 2048) ∧
    0 ≤ mapAxis raw 2048 300 4095 ∧ mapAxis raw 2048 300 4095 < 65536 ∧
    -2147483648 ≤ (1748 - (raw : Int)) * 4095 ∧ (1748 - (raw : Int)) * 4095 < 2147483648 ∧
    -2147483648 ≤ ((raw : Int) - 2348) * 4095 ∧ ((raw : Int) - 2348) * 4095 < 2147483648 := by
  have hm := mapAxis_eq raw hraw
  have hle := axis_level_le raw hraw
  refine ⟨?_, ?_, ?_, ?_, ?_, ?_, ?_, ?_, ?_, ?_, ?_⟩
  · rw [pwm_red_eq WIDTH HEIGHT g raw other hraw, hpwm, hm]; rfl
  · rw [pwm_blue_eq WIDTH HEIGHT g other raw hraw, hpwm, hm]; rfl
  · intro h
    have := abs_le.mp h
    rw [hm]; unfold axis_level
    rw [if_neg (by omega), if_neg (by omega)]; rfl
  · intro h
    rw [hm]; unfold axis_level
    rw [if_pos h, Int.tdiv_eq_ediv (by omega) (by omega)]
    omega
  · intro h
    rw [hm]; unfold axis_level
    rw [if_neg (by omega), if_pos (by omega), Int.tdiv_eq_ediv (by omega) (by omega)]
    omega
  · rw [hm]; omega
  · rw [hm]; omega
  all_goals omega

/-- Witness of C1 at raw = 0, the other sample 4095, the initial globals. -/
theorem C1_witness :
    (0 : Nat) ≤ 4095 ∧ initial_globals.toggle_pwm = true ∧
    ((main_loop_body 128 64 initial_globals 0 4095).pwm_red : Int) = mapAxis (0 : Nat) 2048 300 4095 :=
  ⟨by decide, rfl, (C1_pwm_levels_refine_mapAxis 128 64 initial_globals 0 4095 (by decide) rfl).1⟩

/-- C2: for the joystick button and for button A, for every state and every time
now >= last_accepted of that button (now a `uint32_t`, `border_style` a
`uint8_t`), a falling-edge event changes the globals iff
now - last_accepted >= 200; when it is accepted the button's timestamp becomes
now and the button's effect is applied (joystick: `led_verde_on` negated and
`border_style` advanced modulo 2; button A: `toggle_pwm` negated), every other
field keeping its value; when it is rejected the globals are unchanged. -/
theorem C2_debounce_accept_iff (g : Globals) (events now : Nat)
    (hfall : events &&& GPIO_IRQ_EDGE_FALL ≠ 0) (hnow : now < 4294967296)
    (hb : g.border_style < 256) :
    (g.last_debounce_joystick ≤ now →
      ((gpio_irq_handler JOYSTICK_PB events now g).globals ≠ g ↔
        200 ≤ now - g.last_debounce_joystick) ∧
      (200 ≤ now - g.last_debounce_joystick →
        (gpio_irq_handler JOYSTICK_PB events now g).globals =
          { g with
            last_debounce_joystick := now
            led_verde_on := !g.led_verde_on
            border_style := (g.border_style + 1) % 2 }) ∧
      (now - g.last_debounce_joystick < 200 →
        (gpio_irq_handler JOYSTICK_PB events now g).globals = g)) ∧
    (g.last_debounce_botaoA ≤ now →
      ((gpio_irq_handler BOTAO_A events now g).globals ≠ g ↔
        200 ≤ now - g.last_debounce_botaoA) ∧
      (200 ≤ now - g.last_debounce_botaoA →
        (gpio_irq_handler BOTAO_A events now g).globals =
          { g with last_debounce_botaoA := now, toggle_pwm := !g.toggle_pwm }) ∧
      (now - g.last_debounce_botaoA < 200 →
        (gpio_irq_handler BOTAO_A events now g).globals = g)) := by
  constructor
  · intro hle
    rw [handler_joystick g events now hfall, to_uint32_sub _ _ hle hnow, border_next _ hb]
    unfold DEBOUNCE_DELAY
    by_cases h : now - g.last_debounce_joystick < 200
    · rw [if_pos h]
      exact ⟨⟨fun hne => absurd rfl hne, fun h2 => by omega⟩, fun h2 => by omega, fun _ => rfl⟩
    · rw [if_neg h]
      refine ⟨⟨fun _ => by omega, fun _ heq => ?_⟩, fun _ => rfl, fun h2 => absurd h2 h⟩
      have := congrArg Globals.last_debounce_joystick heq
      simp only at this
      omega
  · intro hle
    rw [handler_botaoA g events now hfall, to_uint32_sub _ _ hle hnow]
    unfold DEBOUNCE_DELAY
    by_cases h : now - g.last_debounce_botaoA < 200
    · rw [if_pos h]
      exact ⟨⟨fun hne => absurd rfl hne, fun h2 => by omega⟩, fun h2 => by omega, fun _ => rfl⟩
    · rw [if_neg h]
      refine ⟨⟨fun _ => by omega, fun _ heq => ?_⟩, fun _ => rfl, fun h2 => absurd h2 h⟩
      have := congrArg Globals.last_debounce_botaoA heq
      simp only at this
      omega

/-- Witness of C2: a falling edge of the joystick button 250 ms after boot, from
the initial globals, is accepted. -/
theorem C2_witness :
    4 &&& GPIO_IRQ_EDGE_FALL ≠ 0 ∧ 250 < 4294967296 ∧ initial_globals.border_style < 256 ∧
    initial_globals.last_debounce_joystick ≤ 250 ∧
    200 ≤ 250 - initial_globals.last_debounce_joystick ∧
    (gpio_irq_handler JOYSTICK_PB 4 250 initial_globals).globals =
      { initial_globals with
        last_debounce_joystick := 250
        led_verde_on := true
        border_style := 1 } :=
  ⟨by decide, by decide, by decide, by decide, by decide,
    ((C2_debounce_accept_iff initial_globals 4 250 (by decide) (by decide) (by decide)).1
      (by decide)).2.1 (by decide)⟩

/-- C3 fails as stated: from the initial globals, two falling edges of the
joystick button (and of button A) at 100 ms and 400 ms are 300 ms apart, yet
only one effect is applied, the first edge falling inside the 200 ms after
boot; and two edges at 0 ms and 100 ms apply no effect at all. -/
theorem C3_counterexample :
    (100 : Nat) ≤ 400 ∧ 200 ≤ 400 - 100 ∧
    effects_applied JOYSTICK_PB initial_globals [100, 400] = 1 ∧
    effects_applied BOTAO_A initial_globals [100, 400] = 1 ∧
    effects_applied JOYSTICK_PB initial_globals [100, 400] ≠ 2 ∧
    (0 : Nat) ≤ 100 ∧ 100 - 0 < 200 ∧
    effects_applied JOYSTICK_PB initial_globals [0, 100] = 0 ∧
    effects_applied JOYSTICK_PB initial_globals [0, 100] ≠ 1 := by
  decide

/-- C3, amended: for either debounced button, starting from the initial globals,
for every two falling-edge triggers of that button at times
200 <= t1 <= t2 < 2^32 (the first at least one debounce window after boot):
if t2 - t1 < 200 exactly one effect is applied, and if t2 - t1 >= 200 exactly
two. -/
theorem C3_two_triggers_after_boot_window (t1 t2 : Nat)
    (h1 : 200 ≤ t1) (h12 : t1 ≤ t2) (h2 : t2 < 4294967296) :
    (t2 - t1 < 200 →
      effects_applied JOYSTICK_PB initial_globals [t1, t2] = 1 ∧
      effects_applied BOTAO_A initial_globals [t1, t2] = 1) ∧
    (200 ≤ t2 - t1 →
      effects_applied JOYSTICK_PB initial_globals [t1, t2] = 2 ∧
      effects_applied BOTAO_A initial_globals [t1, t2] = 2) := by
  have hf : GPIO_IRQ_EDGE_FALL &&& GPIO_IRQ_EDGE_FALL ≠ 0 := by decide
  have e1 : to_uint32 ((t1 : Int) - ((0 : Nat) : Int)) = t1 - 0 :=
    to_uint32_sub t1 0 (by omega) (by omega)
  have e2 : to_uint32 ((t2 : Int) - (t1 : Int)) = t2 - t1 := to_uint32_sub t2 t1 h12 h2
  have hn1 : ¬ t1 - 0 < 200 := by omega
  have hb : to_uint8 (int_mod (int_add ((0 : Nat) : Int) 1) NUM_BORDER_STYLES) = 1 := by decide
  constructor
  · intro hlt
    simp only [effects_applied, handler_joystick _ _ _ hf, handler_botaoA _ _ _ hf,
      initial_globals, e1, e2, DEBOUNCE_DELAY, hn1, hlt, if_true, if_false, effect_applied]
    decide
  · intro hge
    have hn2 : ¬ t2 - t1 < 200 := by omega
    simp only [effects_applied, handler_joystick _ _ _ hf, handler_botaoA _ _ _ hf,
      initial_globals, e1, e2, DEBOUNCE_DELAY, hn1, hn2, if_true, if_false, effect_applied, hb]
    decide

/-- Witness of the amended C3 at t1 = 300, t2 = 600. -/
theorem C3_witness :
    200 ≤ 300 ∧ 300 ≤ 600 ∧ 600 < 4294967296 ∧ 200 ≤ 600 - 300 ∧
    effects_applied JOYSTICK_PB initial_globals [300, 600] = 2 ∧
    effects_applied BOTAO_A initial_globals [300, 600] = 2 :=
  ⟨by decide, by decide, by decide, by decide,
    (C3_two_triggers_after_boot_window 300 600 (by decide) (by decide) (by decide)).2
      (by decide)⟩

/-- C4 fails as stated: with raw_x = raw_y = 2048, the initial globals,
WIDTH = 128 and HEIGHT = 64, the marker row is
((4095 - 2048) * 56) / 4095 = 27, not (HEIGHT - 8) / 2 = 28. -/
theorem C4_counterexample :
    (main_loop_body 128 64 initial_globals 2048 2048).pos_y = 27 ∧
    (main_loop_body 128 64 initial_globals 2048 2048).pos_y ≠ (64 - 8) / 2 ∧
    ((main_loop_body 128 64 initial_globals 2048 2048).pos_x,
      (main_loop_body 128 64 initial_globals 2048 2048).pos_y) ≠ (60, 28) := by
  decide

/-- C4, amended: with raw_x = raw_y = 2048 and the initial globals, with
WIDTH = 128 and HEIGHT = 64, one pass of the loop yields red = blue = 0
(green = 0 as well), the marker position (pos_x, pos_y) = (60, 27), and the
simple border: the display calls are the clear, exactly one outline rectangle
at (0,0) of size 128 x 64, the filled 8 x 8 marker at top 27, left 60, and the
flush. -/
theorem C4_centered_scenario :
    main_loop_body 128 64 initial_globals 2048 2048 =
      { pwm_red := 0
        pwm_blue := 0
        pwm_green := 0
        pos_x := 60
        pos_y := 27
        display :=
          [DisplayCall.ssd1306_fill false,
           DisplayCall.ssd1306_rect 0 0 128 64 true false,
           DisplayCall.ssd1306_rect 27 60 8 8 true true,
           DisplayCall.ssd1306_send_data] } := by
  decide

/-- C5: for all raw_x, raw_y in [0,4095], with WIDTH = 128 and HEIGHT = 64 and
any globals, the marker position satisfies pos_x <= WIDTH - 8 and
pos_y <= HEIGHT - 8 (both are naturals, so 0 <= holds), and at the endpoints
raw_y = 0 gives pos_x = 0, raw_y = 4095 gives pos_x = WIDTH - 8, raw_x = 4095
gives pos_y = 0 and raw_x = 0 gives pos_y = HEIGHT - 8. -/
theorem C5_marker_within_display (g : Globals) (raw_x raw_y : Nat)
    (hx : raw_x ≤ 4095) (hy : raw_y ≤ 4095) :
    (main_loop_body 128 64 g raw_x raw_y).pos_x ≤ 128 - 8 ∧
    (main_loop_body 128 64 g raw_x raw_y).pos_y ≤ 64 - 8 ∧
    (main_loop_body 128 64 g raw_x 0).pos_x = 0 ∧
    (main_loop_body 128 64 g raw_x 4095).pos_x = 128 - 8 ∧
    (main_loop_body 128 64 g 4095 raw_y).pos_y = 0 ∧
    (main_loop_body 128 64 g 0 raw_y).pos_y = 64 - 8 := by
  refine ⟨?_, ?_, ?_, ?_, ?_, ?_⟩
  · rw [pos_x_eq g raw_x raw_y hy]; omega
  · rw [pos_y_eq g raw_x raw_y hx]; omega
  · rw [pos_x_eq g raw_x 0 (by omega)]
  · rw [pos_x_eq g raw_x 4095 (by omega)]
  · rw [pos_y_eq g 4095 raw_y (by omega)]
  · rw [pos_y_eq g 0 raw_y (by omega)]

/-- Witness of C5 at raw_x = 1000, raw_y = 3000 with the initial globals. -/
theorem C5_witness :
    (1000 : Nat) ≤ 4095 ∧ (3000 : Nat) ≤ 4095 ∧
    (main_loop_body 128 64 initial_globals 1000 3000).pos_x ≤ 128 - 8 ∧
    (main_loop_body 128 64 initial_globals 1000 3000).pos_y ≤ 64 - 8 :=
  ⟨by decide, by decide,
    (C5_marker_within_display initial_globals 1000 3000 (by decide) (by decide)).1,
    (C5_marker_within_display initial_globals 1000 3000 (by decide) (by decide)).2.1⟩

/-- C6: for all raw samples in [0,4095], any display size and any globals, the
red level (from X) and the blue level (from Y) written by a pass of the loop
are at most 4095 = PWM_WRAP; they are naturals, so never negative, and the
values before the `uint16_t` store, the two truncated quotients, already lie in
[0,4095], so the store does not wrap. -/
theorem C6_levels_within_wrap (WIDTH HEIGHT : Int) (g : Globals) (raw_x raw_y : Nat)
    (hx : raw_x ≤ 4095) (hy : raw_y ≤ 4095) :
    ((main_loop_body WIDTH HEIGHT g raw_x raw_y).pwm_red : Int) ≤ PWM_WRAP ∧
    ((main_loop_body WIDTH HEIGHT g raw_x raw_y).pwm_blue : Int) ≤ PWM_WRAP ∧
    (raw_x < 1748 → 0 ≤ Int.tdiv ((1748 - (raw_x : Int)) * 4095) 2048 ∧
      Int.tdiv ((1748 - (raw_x : Int)) * 4095) 2048 ≤ 4095) ∧
    (2348 < raw_x → 0 ≤ Int.tdiv (((raw_x : Int) - 2348) * 4095) 2048 ∧
      Int.tdiv (((raw_x : Int) - 2348) * 4095) 2048 ≤ 4095) := by
  have h1 := axis_level_le raw_x hx
  have h2 := axis_level_le raw_y hy
  refine ⟨?_, ?_, ?_, ?_⟩
  · rw [pwm_red_eq WIDTH HEIGHT g raw_x raw_y hx]; unfold PWM_WRAP
    split <;> omega
  · rw [pwm_blue_eq WIDTH HEIGHT g raw_x raw_y hy]; unfold PWM_WRAP
    split <;> omega
  · intro h
    rw [Int.tdiv_eq_ediv (by omega) (by omega)]
    constructor <;> omega
  · intro h
    rw [Int.tdiv_eq_ediv (by omega) (by omega)]
    constructor <;> omega

/-- Witness of C6 at raw_x = 0, raw_y = 4095 with the initial globals. -/
theorem C6_witness :
    (0 : Nat) ≤ 4095 ∧ (4095 : Nat) ≤ 4095 ∧
    ((main_loop_body 128 64 initial_globals 0 4095).pwm_red : Int) ≤ PWM_WRAP ∧
    ((main_loop_body 128 64 initial_globals 0 4095).pwm_blue : Int) ≤ PWM_WRAP :=
  ⟨by decide, by decide,
    (C6_levels_within_wrap 128 64 initial_globals 0 4095 (by decide) (by decide)).1,
    (C6_levels_within_wrap 128 64 initial_globals 0 4095 (by decide) (by decide)).2.1⟩

/-- C7: for all raw_x, raw_y (in [0,4095] or not), any display size and both
values of `led_verde_on`, when `toggle_pwm` is false the three levels written
in a pass of the loop are red = 0, blue = 0 and green = 0. -/
theorem C7_pwm_disabled_forces_zero (WIDTH HEIGHT : Int) (g : Globals) (raw_x raw_y : Nat)
    (hoff : g.toggle_pwm = false) :
    (main_loop_body WIDTH HEIGHT g raw_x raw_y).pwm_red = 0 ∧
    (main_loop_body WIDTH HEIGHT g raw_x raw_y).pwm_blue = 0 ∧
    (main_loop_body WIDTH HEIGHT g raw_x raw_y).pwm_green = 0 := by
  simp [main_loop_body, main_loop_pass, hoff]

/-- Witness of C7: PWM off, green on, both axes at full deflection. -/
theorem C7_witness :
    ({ initial_globals with toggle_pwm := false, led_verde_on := true } : Globals).toggle_pwm
      = false ∧
    (main_loop_body 128 64 { initial_globals with toggle_pwm := false, led_verde_on := true }
      0 4095).pwm_red = 0 ∧
    (main_loop_body 128 64 { initial_globals with toggle_pwm := false, led_verde_on := true }
      0 4095).pwm_blue = 0 ∧
    (main_loop_body 128 64 { initial_globals with toggle_pwm := false, led_verde_on := true }
      0 4095).pwm_green = 0 :=
  ⟨rfl, C7_pwm_disabled_forces_zero 128 64
    { initial_globals with toggle_pwm := false, led_verde_on := true } 0 4095 rfl⟩

/-- C8: an accepted joystick press (falling edge with the debounce window
elapsed) negates `led_verde_on` and sets `border_style` to
(border_style + 1) mod 2; a second accepted press brings `led_verde_on` back,
and brings `border_style` back whenever it started in {0,1}; in particular from
border_style = 0 and led_verde_on = false (the initial values) the two presses
take border_style 0 -> 1 -> 0 and led_verde_on false -> true -> false. -/
theorem C8_joystick_press_toggles (g : Globals) (e1 e2 t1 t2 : Nat)
    (hf1 : e1 &&& GPIO_IRQ_EDGE_FALL ≠ 0) (hf2 : e2 &&& GPIO_IRQ_EDGE_FALL ≠ 0)
    (hb : g.border_style < 256)
    (ha1 : DEBOUNCE_DELAY ≤ to_uint32 ((t1 : Int) - (g.last_debounce_joystick : Int)))
    (ha2 : DEBOUNCE_DELAY ≤ to_uint32 ((t2 : Int) - (t1 : Int))) :
    (gpio_irq_handler JOYSTICK_PB e1 t1 g).globals.led_verde_on = !g.led_verde_on ∧
    (gpio_irq_handler JOYSTICK_PB e1 t1 g).globals.border_style = (g.border_style + 1) % 2 ∧
    (gpio_irq_handler JOYSTICK_PB e2 t2
      (gpio_irq_handler JOYSTICK_PB e1 t1 g).globals).globals.led_verde_on = g.led_verde_on ∧
    (g.border_style ≤ 1 →
      (gpio_irq_handler JOYSTICK_PB e2 t2
        (gpio_irq_handler JOYSTICK_PB e1 t1 g).globals).globals.border_style = g.border_style) ∧
    (g.border_style = 0 → g.led_verde_on = false →
      (gpio_irq_handler JOYSTICK_PB e1 t1 g).globals.border_style = 1 ∧
      (gpio_irq_handler JOYSTICK_PB e1 t1 g).globals.led_verde_on = true ∧
      (gpio_irq_handler JOYSTICK_PB e2 t2
        (gpio_irq_handler JOYSTICK_PB e1 t1 g).globals).globals.border_style = 0 ∧
      (gpio_irq_handler JOYSTICK_PB e2 t2
        (gpio_irq_handler JOYSTICK_PB e1 t1 g).globals).globals.led_verde_on = false) := by
  have hb2 : (g.border_style + 1) % 2 < 256 := by omega
  have s1 : (gpio_irq_handler JOYSTICK_PB e1 t1 g).globals =
      { g with
        last_debounce_joystick := t1
        led_verde_on := !g.led_verde_on
        border_style := (g.border_style + 1) % 2 } := by
    rw [handler_joystick g e1 t1 hf1, if_neg (by omega), border_next _ hb]
  have s2 : (gpio_irq_handler JOYSTICK_PB e2 t2
      (gpio_irq_handler JOYSTICK_PB e1 t1 g).globals).globals =
      { g with
        last_debounce_joystick := t2
        led_verde_on := !(!g.led_verde_on)
        border_style := ((g.border_style + 1) % 2 + 1) % 2 } := by
    rw [s1, handler_joystick _ e2 t2 hf2]
    simp only
    rw [if_neg (by omega), border_next _ hb2]
  rw [s2, s1]
  simp only [Bool.not_not, true_and]
  refine ⟨fun h => by omega, fun h0 hl => ?_⟩
  simp [h0, hl]

/-- Witness of C8: from the initial globals, joystick presses at 200 ms and
400 ms. -/
theorem C8_witness :
    4 &&& GPIO_IRQ_EDGE_FALL ≠ 0 ∧ initial_globals.border_style < 256 ∧
    DEBOUNCE_DELAY ≤ to_uint32 ((200 : Int) - (initial_globals.last_debounce_joystick : Int)) ∧
    DEBOUNCE_DELAY ≤ to_uint32 ((400 : Int) - (200 : Int)) ∧
    (gpio_irq_handler JOYSTICK_PB 4 200 initial_globals).globals.border_style = 1 ∧
    (gpio_irq_handler JOYSTICK_PB 4 200 initial_globals).globals.led_verde_on = true ∧
    (gpio_irq_handler JOYSTICK_PB 4 400
      (gpio_irq_handler JOYSTICK_PB 4 200 initial_globals).globals).globals.border_style = 0 ∧
    (gpio_irq_handler JOYSTICK_PB 4 400
      (gpio_irq_handler JOYSTICK_PB 4 200 initial_globals).globals).globals.led_verde_on
        = false :=
  ⟨by decide, by decide, by decide, by decide,
    (C8_joystick_press_toggles initial_globals 4 4 200 400 (by decide) (by decide) (by decide)
      (by decide) (by decide)).2.2.2.2 rfl rfl⟩

/-- C9: the red level as a function of X and the blue level as a function of Y
are monotonic away from the deadzone, for any globals, display size and other
sample: for raw1 <= raw2 < 1748 the level at raw1 is at least the level at
raw2, and for 2348 < raw1 <= raw2 <= 4095 the level at raw1 is at most the
level at raw2. -/
theorem C9_levels_monotonic (WIDTH HEIGHT : Int) (g : Globals) (raw1 raw2 other : Nat)
    (h12 : raw1 ≤ raw2) (h2 : raw2 ≤ 4095) :
    (raw2 < 1748 →
      (main_loop_body WIDTH HEIGHT g raw2 other).pwm_red ≤
        (main_loop_body WIDTH HEIGHT g raw1 other).pwm_red ∧
      (main_loop_body WIDTH HEIGHT g other raw2).pwm_blue ≤
        (main_loop_body WIDTH HEIGHT g other raw1).pwm_blue) ∧
    (2348 < raw1 →
      (main_loop_body WIDTH HEIGHT g raw1 other).pwm_red ≤
        (main_loop_body WIDTH HEIGHT g raw2 other).pwm_red ∧
      (main_loop_body WIDTH HEIGHT g other raw1).pwm_blue ≤
        (main_loop_body WIDTH HEIGHT g other raw2).pwm_blue) := by
  have h1 : raw1 ≤ 4095 := by omega
  rw [pwm_red_eq WIDTH HEIGHT g raw1 other h1, pwm_red_eq WIDTH HEIGHT g raw2 other h2,
    pwm_blue_eq WIDTH HEIGHT g other raw1 h1, pwm_blue_eq WIDTH HEIGHT g other raw2 h2]
  cases g.toggle_pwm
  · simp
  · simp only [if_true, and_self]
    unfold axis_level
    constructor
    · intro h
      rw [if_pos h, if_pos (by omega)]
      omega
    · intro h
      rw [if_neg (by omega), if_pos h, if_neg (by omega), if_pos (by omega)]
      omega

/-- Witness of C9 on the low side: raw1 = 100 <= raw2 = 1000 < 1748, PWM on. -/
theorem C9_witness :
    (100 : Nat) ≤ 1000 ∧ (1000 : Nat) ≤ 4095 ∧ (1000 : Nat) < 1748 ∧
    (main_loop_body 128 64 initial_globals 1000 2048).pwm_red ≤
      (main_loop_body 128 64 initial_globals 100 2048).pwm_red :=
  ⟨by decide, by decide, by decide,
    ((C9_levels_monotonic 128 64 initial_globals 100 1000 2048 (by decide) (by decide)).1
      (by decide)).1⟩

/-- C10: with PWM enabled, the red level (and likewise the blue level) written
by a pass of the loop is 0 at raw = 2048, 0 at both deadzone boundaries
raw = 1748 and raw = 2348, and ((2048 - 300 - 0) * 4095) / 2048 = 3495 at
raw = 0, whatever the other sample, the display size and the other globals. -/
theorem C10_levels_at_landmarks (WIDTH HEIGHT : Int) (g : Globals) (other : Nat)
    (hpwm : g.toggle_pwm = true) :
    (main_loop_body WIDTH HEIGHT g 2048 other).pwm_red = 0 ∧
    (main_loop_body WIDTH HEIGHT g 1748 other).pwm_red = 0 ∧
    (main_loop_body WIDTH HEIGHT g 2348 other).pwm_red = 0 ∧
    (main_loop_body WIDTH HEIGHT g 0 other).pwm_red = ((2048 - 300 - 0) * 4095) / 2048 ∧
    (main_loop_body WIDTH HEIGHT g 0 other).pwm_red = 3495 ∧
    (main_loop_body WIDTH HEIGHT g other 2048).pwm_blue = 0 ∧
    (main_loop_body WIDTH HEIGHT g other 1748).pwm_blue = 0 ∧
    (main_loop_body WIDTH HEIGHT g other 2348).pwm_blue = 0 ∧
    (main_loop_body WIDTH HEIGHT g other 0).pwm_blue = ((2048 - 300 - 0) * 4095) / 2048 ∧
    (main_loop_body WIDTH HEIGHT g other 0).pwm_blue = 3495 := by
  rw [pwm_red_eq WIDTH HEIGHT g 2048 other (by omega),
    pwm_red_eq WIDTH HEIGHT g 1748 other (by omega),
    pwm_red_eq WIDTH HEIGHT g 2348 other (by omega),
    pwm_red_eq WIDTH HEIGHT g 0 other (by omega),
    pwm_blue_eq WIDTH HEIGHT g other 2048 (by omega),
    pwm_blue_eq WIDTH HEIGHT g other 1748 (by omega),
    pwm_blue_eq WIDTH HEIGHT g other 2348 (by omega),
    pwm_blue_eq WIDTH HEIGHT g other 0 (by omega), hpwm]
  decide

/-- Witness of C10 with the initial globals and the other sample centred. -/
theorem C10_witness :
    initial_globals.toggle_pwm = true ∧
    (main_loop_body 128 64 initial_globals 2048 2048).pwm_red = 0 ∧
    (main_loop_body 128 64 initial_globals 1748 2048).pwm_red = 0 ∧
    (main_loop_body 128 64 initial_globals 2348 2048).pwm_red = 0 ∧
    (main_loop_body 128 64 initial_globals 0 2048).pwm_red = 3495 :=
  ⟨rfl, (C10_levels_at_landmarks 128 64 initial_globals 2048 rfl).1,
    (C10_levels_at_landmarks 128 64 initial_globals 2048 rfl).2.1,
    (C10_levels_at_landmarks 128 64 initial_globals 2048 rfl).2.2.1,
    (C10_levels_at_landmarks 128 64 initial_globals 2048 rfl).2.2.2.2.1⟩

/-- C11: for WIDTH = 128 and HEIGHT = 64 and all raw_x, raw_y in [0,4095], the
stored `uint8_t` marker coordinates equal the untruncated formulas
pos_x = (raw_y * (WIDTH - 8)) / 4095 and
pos_y = ((4095 - raw_x) * (HEIGHT - 8)) / 4095 (truncating division), both
quotients lying in [0,255] so that the 8-bit store does not wrap; pos_x is the
same for every raw_x and pos_y the same for every raw_y (any other sample,
any globals). -/
theorem C11_marker_coordinates_untruncated (g : Globals) (raw_x raw_y other : Nat)
    (hx : raw_x ≤ 4095) (hy : raw_y ≤ 4095) :
    ((main_loop_body 128 64 g other raw_y).pos_x : Int) =
      Int.tdiv ((raw_y : Int) * (128 - 8)) 4095 ∧
    ((main_loop_body 128 64 g raw_x other).pos_y : Int) =
      Int.tdiv ((4095 - (raw_x : Int)) * (64 - 8)) 4095 ∧
    0 ≤ Int.tdiv ((raw_y : Int) * (128 - 8)) 4095 ∧
    Int.tdiv ((raw_y : Int) * (128 - 8)) 4095 < 256 ∧
    0 ≤ Int.tdiv ((4095 - (raw_x : Int)) * (64 - 8)) 4095 ∧
    Int.tdiv ((4095 - (raw_x : Int)) * (64 - 8)) 4095 < 256 := by
  rw [pos_x_eq g other raw_y hy, pos_y_eq g raw_x other hx,
    Int.tdiv_eq_ediv (by omega) (by omega), Int.tdiv_eq_ediv (by omega) (by omega)]
  refine ⟨?_, ?_, ?_, ?_, ?_, ?_⟩ <;> omega

/-- Witness of C11 at raw_x = 1000, raw_y = 3000, the other sample 7. -/
theorem C11_witness :
    (1000 : Nat) ≤ 4095 ∧ (3000 : Nat) ≤ 4095 ∧
    ((main_loop_body 128 64 initial_globals 7 3000).pos_x : Int) =
      Int.tdiv (((3000 : Nat) : Int) * (128 - 8)) 4095 ∧
    ((main_loop_body 128 64 initial_globals 1000 7).pos_y : Int) =
      Int.tdiv ((4095 - ((1000 : Nat) : Int)) * (64 - 8)) 4095 :=
  ⟨by decide, by decide,
    (C11_marker_coordinates_untruncated initial_globals 1000 3000 7 (by decide) (by decide)).1,
    (C11_marker_coordinates_untruncated initial_globals 1000 3000 7 (by decide) (by decide)).2.1⟩

/-- C12: for every pair of samples (hence every marker position), every display
size that is a non-negative `int`, and `border_style` in {0,1}, the display
calls of one pass are, in order: the clear; an unfilled rectangle at (0,0) of
size WIDTH x HEIGHT; for border_style = 1 only, a second unfilled rectangle at
(2,2) of size (WIDTH - 4) x (HEIGHT - 4); one filled 8 x 8 rectangle with
top = pos_y and left = pos_x; the flush. With border_style = 0 exactly one
border rectangle is drawn, and the sequence is a function of `border_style` and
the samples alone: globals agreeing on `border_style` give the same calls. -/
theorem C12_display_call_sequence (WIDTH HEIGHT : Int) (g : Globals) (raw_x raw_y : Nat)
    (hW0 : 0 ≤ WIDTH) (hW : WIDTH < 2147483648) (hH0 : 0 ≤ HEIGHT) (hH : HEIGHT < 2147483648)
    (hb : g.border_style = 0 ∨ g.border_style = 1) :
    (main_loop_body WIDTH HEIGHT g raw_x raw_y).display =
      [DisplayCall.ssd1306_fill false, DisplayCall.ssd1306_rect 0 0 WIDTH HEIGHT true false] ++
        (if g.border_style = 1 then
          [DisplayCall.ssd1306_rect 2 2 (WIDTH - 4) (HEIGHT - 4) true false]
        else []) ++
        [DisplayCall.ssd1306_rect (main_loop_body WIDTH HEIGHT g raw_x raw_y).pos_y
            (main_loop_body WIDTH HEIGHT g raw_x raw_y).pos_x 8 8 true true,
          DisplayCall.ssd1306_send_data] ∧
    (g.border_style = 0 →
      (main_loop_body WIDTH HEIGHT g raw_x raw_y).display =
        [DisplayCall.ssd1306_fill false, DisplayCall.ssd1306_rect 0 0 WIDTH HEIGHT true false,
          DisplayCall.ssd1306_rect (main_loop_body WIDTH HEIGHT g raw_x raw_y).pos_y
            (main_loop_body WIDTH HEIGHT g raw_x raw_y).pos_x 8 8 true true,
          DisplayCall.ssd1306_send_data]) ∧
    (∀ g2 : Globals, g2.border_style = g.border_style →
      (main_loop_body WIDTH HEIGHT g2 raw_x raw_y).display =
        (main_loop_body WIDTH HEIGHT g raw_x raw_y).display) := by
  have eW : int_sub WIDTH 4 = WIDTH - 4 := by
    unfold int_sub; apply wrap_int_of_range <;> omega
  have eH : int_sub HEIGHT 4 = HEIGHT - 4 := by
    unfold int_sub; apply wrap_int_of_range <;> omega
  refine ⟨?_, ?_, ?_⟩
  · rcases hb with h0 | h1
    · simp [main_loop_body, main_loop_pass, h0]
    · simp [main_loop_body, main_loop_pass, h1, eW, eH]
  · intro h0
    simp [main_loop_body, main_loop_pass, h0]
  · intro g2 h2
    simp only [main_loop_body, main_loop_pass, h2]

/-- Witness of C12: the double border at 128 x 64 with both samples centred. -/
theorem C12_witness :
    (0 : Int) ≤ 128 ∧ (128 : Int) < 2147483648 ∧ (0 : Int) ≤ 64 ∧ (64 : Int) < 2147483648 ∧
    (({ initial_globals with border_style := 1 } : Globals).border_style = 0 ∨
      ({ initial_globals with border_style := 1 } : Globals).border_style = 1) ∧
    (main_loop_body 128 64 { initial_globals with border_style := 1 } 2048 2048).display =
      [DisplayCall.ssd1306_fill false, DisplayCall.ssd1306_rect 0 0 128 64 true false,
        DisplayCall.ssd1306_rect 2 2 124 60 true false,
        DisplayCall.ssd1306_rect 27 60 8 8 true true,
        DisplayCall.ssd1306_send_data] :=
  ⟨by decide, by decide, by decide, by decide, Or.inr rfl,
    (C12_display_call_sequence 128 64 { initial_globals with border_style := 1 } 2048 2048
      (by decide) (by decide) (by decide) (by decide) (Or.inr rfl)).1⟩

/-- C13: button B is not debounced: for every state and every time, whatever
the two debounce timestamps hold, a falling-edge event on gpio 6 calls
`reset_usb_boot` and leaves all five globals (the three control fields and both
timestamps) unchanged. -/
theorem C13_button_b_not_debounced (g : Globals) (events now : Nat)
    (hfall : events &&& GPIO_IRQ_EDGE_FALL ≠ 0) :
    (gpio_irq_handler BOTAO_B events now g).reset_usb_boot = true ∧
    (gpio_irq_handler BOTAO_B events now g).globals = g := by
  simp [gpio_irq_handler, hfall]

/-- Witness of C13: button B pressed at 1001 ms with both debounce timestamps at
1000 ms. -/
theorem C13_witness :
    4 &&& GPIO_IRQ_EDGE_FALL ≠ 0 ∧
    (gpio_irq_handler BOTAO_B 4 1001
      { initial_globals with last_debounce_joystick := 1000, last_debounce_botaoA := 1000 }
      ).reset_usb_boot = true ∧
    (gpio_irq_handler BOTAO_B 4 1001
      { initial_globals with last_debounce_joystick := 1000, last_debounce_botaoA := 1000 }
      ).globals =
      { initial_globals with last_debounce_joystick := 1000, last_debounce_botaoA := 1000 } :=
  ⟨by decide, C13_button_b_not_debounced
    { initial_globals with last_debounce_joystick := 1000, last_debounce_botaoA := 1000 }
    4 1001 (by decide)⟩

/-- C14: the debounce decision tolerates wraparound of the 32-bit millisecond
clock: for every last_accepted (in [0, 2^32) or not) and every true elapsed time d in
[0, 2^32), with now = (last_accepted + d) mod 2^32, the handler's difference
(now - last_accepted) mod 2^32 is d, and a falling-edge event of the joystick
button or of button A changes the globals iff d >= 200; when d >= 200 the
timestamp of that button becomes now and its flag is negated. -/
theorem C14_debounce_wraparound (g : Globals) (events d : Nat)
    (hfall : events &&& GPIO_IRQ_EDGE_FALL ≠ 0) (hd : d < 4294967296) :
    (to_uint32 ((((g.last_debounce_joystick + d) % 4294967296 : Nat) : Int) -
        (g.last_debounce_joystick : Int)) = d ∧
      ((gpio_irq_handler JOYSTICK_PB events ((g.last_debounce_joystick + d) % 4294967296)
          g).globals ≠ g ↔ 200 ≤ d) ∧
      (200 ≤ d →
        (gpio_irq_handler JOYSTICK_PB events ((g.last_debounce_joystick + d) % 4294967296)
          g).globals.last_debounce_joystick = (g.last_debounce_joystick + d) % 4294967296 ∧
        (gpio_irq_handler JOYSTICK_PB events ((g.last_debounce_joystick + d) % 4294967296)
          g).globals.led_verde_on = !g.led_verde_on)) ∧
    (to_uint32 ((((g.last_debounce_botaoA + d) % 4294967296 : Nat) : Int) -
        (g.last_debounce_botaoA : Int)) = d ∧
      ((gpio_irq_handler BOTAO_A events ((g.last_debounce_botaoA + d) % 4294967296)
          g).globals ≠ g ↔ 200 ≤ d) ∧
      (200 ≤ d →
        (gpio_irq_handler BOTAO_A events ((g.last_debounce_botaoA + d) % 4294967296)
          g).globals.last_debounce_botaoA = (g.last_debounce_botaoA + d) % 4294967296 ∧
        (gpio_irq_handler BOTAO_A events ((g.last_debounce_botaoA + d) % 4294967296)
          g).globals.toggle_pwm = !g.toggle_pwm)) := by
  have ej : to_uint32 ((((g.last_debounce_joystick + d) % 4294967296 : Nat) : Int) -
      (g.last_debounce_joystick : Int)) = d := by
    unfold to_uint32; omega
  have ea : to_uint32 ((((g.last_debounce_botaoA + d) % 4294967296 : Nat) : Int) -
      (g.last_debounce_botaoA : Int)) = d := by
    unfold to_uint32; omega
  refine ⟨⟨ej, ?_⟩, ⟨ea, ?_⟩⟩
  · rw [handler_joystick g events _ hfall, ej]
    unfold DEBOUNCE_DELAY
    by_cases h : d < 200
    · rw [if_pos h]
      exact ⟨⟨fun hne => absurd rfl hne, fun h2 => by omega⟩, fun h2 => by omega⟩
    · rw [if_neg h]
      refine ⟨⟨fun _ => by omega, fun _ heq => ?_⟩, fun _ => ⟨rfl, rfl⟩⟩
      have := congrArg Globals.led_verde_on heq
      simp only at this
      cases hl : g.led_verde_on <;> rw [hl] at this <;> cases this
  · rw [handler_botaoA g events _ hfall, ea]
    unfold DEBOUNCE_DELAY
    by_cases h : d < 200
    · rw [if_pos h]
      exact ⟨⟨fun hne => absurd rfl hne, fun h2 => by omega⟩, fun h2 => by omega⟩
    · rw [if_neg h]
      refine ⟨⟨fun _ => by omega, fun _ heq => ?_⟩, fun _ => ⟨rfl, rfl⟩⟩
      have := congrArg Globals.toggle_pwm heq
      simp only at this
      cases hl : g.toggle_pwm <;> rw [hl] at this <;> cases this

/-- Witness of C14: last accepted joystick press at 2^32 - 100, then 250 ms
elapse, so the clock has wrapped and reads 150; the press is accepted. -/
theorem C14_witness :
    4 &&& GPIO_IRQ_EDGE_FALL ≠ 0 ∧
    250 < 4294967296 ∧ 200 ≤ 250 ∧ (4294967196 + 250) % 4294967296 = 150 ∧
    (gpio_irq_handler JOYSTICK_PB 4 ((4294967196 + 250) % 4294967296)
      { initial_globals with last_debounce_joystick := 4294967196 }
      ).globals.last_debounce_joystick = (4294967196 + 250) % 4294967296 ∧
    (gpio_irq_handler JOYSTICK_PB 4 ((4294967196 + 250) % 4294967296)
      { initial_globals with last_debounce_joystick := 4294967196 }
      ).globals.led_verde_on = true :=
  ⟨by decide, by decide, by decide, by decide,
    (C14_debounce_wraparound { initial_globals with last_debounce_joystick := 4294967196 } 4 250
      (by decide) (by decide)).1.2.2 (by decide)⟩

/-- C15: for all raw_x, raw_y (in [0,4095] or not) and any display size, when
`toggle_pwm` is true the green level written in a pass of the loop is
4095 = PWM_WRAP if `led_verde_on` is true and 0 otherwise, independent of both
samples. -/
theorem C15_green_level (WIDTH HEIGHT : Int) (g : Globals) (raw_x raw_y : Nat)
    (hpwm : g.toggle_pwm = true) :
    ((main_loop_body WIDTH HEIGHT g raw_x raw_y).pwm_green : Int) =
      (if g.led_verde_on then PWM_WRAP else 0) ∧
    (main_loop_body WIDTH HEIGHT g raw_x raw_y).pwm_green =
      (if g.led_verde_on then 4095 else 0) := by
  have e : to_uint16 4095 = 4095 := by decide
  cases hl : g.led_verde_on <;> simp [main_loop_body, main_loop_pass, hpwm, hl, PWM_WRAP, e]

/-- Witness of C15: green on, PWM on, both axes at full deflection. -/
theorem C15_witness :
    ({ initial_globals with led_verde_on := true } : Globals).toggle_pwm = true ∧
    (main_loop_body 128 64 { initial_globals with led_verde_on := true } 0 4095).pwm_green =
      4095 :=
  ⟨rfl, (C15_green_level 128 64 { initial_globals with led_verde_on := true } 0 4095 rfl).2⟩

/-- C16: a falling edge of button A, accepted or not, leaves `led_verde_on`,
`border_style` and the joystick debounce timestamp unchanged, and when it is
accepted it negates `toggle_pwm` and sets the button A timestamp to now; a
falling edge of the joystick button, accepted or not, leaves `toggle_pwm` and
the button A debounce timestamp unchanged. Hence the value each debounce test
reads is untouched by events of the other button. -/
theorem C16_buttons_independent (g : Globals) (events now : Nat)
    (hfall : events &&& GPIO_IRQ_EDGE_FALL ≠ 0) :
    ((gpio_irq_handler BOTAO_A events now g).globals.led_verde_on = g.led_verde_on ∧
      (gpio_irq_handler BOTAO_A events now g).globals.border_style = g.border_style ∧
      (gpio_irq_handler BOTAO_A events now g).globals.last_debounce_joystick =
        g.last_debounce_joystick) ∧
    (DEBOUNCE_DELAY ≤ to_uint32 ((now : Int) - (g.last_debounce_botaoA : Int)) →
      (gpio_irq_handler BOTAO_A events now g).globals.toggle_pwm = !g.toggle_pwm ∧
      (gpio_irq_handler BOTAO_A events now g).globals.last_debounce_botaoA = now) ∧
    ((gpio_irq_handler JOYSTICK_PB events now g).globals.toggle_pwm = g.toggle_pwm ∧
      (gpio_irq_handler JOYSTICK_PB events now g).globals.last_debounce_botaoA =
        g.last_debounce_botaoA) := by
  rw [handler_botaoA g events now hfall, handler_joystick g events now hfall]
  refine ⟨?_, ?_, ?_⟩
  · split <;> exact ⟨rfl, rfl, rfl⟩
  · intro hacc
    rw [if_neg (by omega)]
    exact ⟨rfl, rfl⟩
  · split <;> exact ⟨rfl, rfl⟩

/-- Witness of C16: button A pressed 500 ms after boot, from the initial
globals. -/
theorem C16_witness :
    4 &&& GPIO_IRQ_EDGE_FALL ≠ 0 ∧
    DEBOUNCE_DELAY ≤ to_uint32 ((500 : Int) - (initial_globals.last_debounce_botaoA : Int)) ∧
    (gpio_irq_handler BOTAO_A 4 500 initial_globals).globals.toggle_pwm = false ∧
    (gpio_irq_handler BOTAO_A 4 500 initial_globals).globals.last_debounce_botaoA = 500 :=
  ⟨by decide, by decide,
    (C16_buttons_independent initial_globals 4 500 (by decide)).2.1 (by decide)⟩

/-- C17: for every state and time, an event delivered to `gpio_irq_handler` with
a gpio other than 22 (joystick), 5 (button A) and 6 (button B), or with an
event mask lacking the falling-edge bit, changes nothing: all five globals are
unchanged and `reset_usb_boot` is not called. -/
theorem C17_other_events_ignored (g : Globals) (gpio events now : Nat)
    (h : (gpio ≠ 22 ∧ gpio ≠ 5 ∧ gpio ≠ 6) ∨ events &&& GPIO_IRQ_EDGE_FALL = 0) :
    (gpio_irq_handler gpio events now g).globals = g ∧
    (gpio_irq_handler gpio events now g).reset_usb_boot = false := by
  rw [handler_ignored g gpio events now h]
  exact ⟨rfl, rfl⟩

/-- Witness of C17: a rising edge (mask 8) on the joystick button, and a falling
edge on gpio 7, long after boot. -/
theorem C17_witness :
    8 &&& GPIO_IRQ_EDGE_FALL = 0 ∧ ((7 : Nat) ≠ 22 ∧ (7 : Nat) ≠ 5 ∧ (7 : Nat) ≠ 6) ∧
    ((gpio_irq_handler 22 8 5000 initial_globals).globals = initial_globals ∧
      (gpio_irq_handler 22 8 5000 initial_globals).reset_usb_boot = false) ∧
    ((gpio_irq_handler 7 4 5000 initial_globals).globals = initial_globals ∧
      (gpio_irq_handler 7 4 5000 initial_globals).reset_usb_boot = false) :=
  ⟨by decide, by decide,
    C17_other_events_ignored initial_globals 22 8 5000 (Or.inr (by decide)),
    C17_other_events_ignored initial_globals 7 4 5000 (Or.inl (by decide))⟩

/-- C19: with PWM enabled, for every raw sample in [0,4095] the red level (and
likewise the blue level) is at most 3495, it equals 3495 only at raw = 0, and
it is strictly less than PWM_WRAP = 4095; the two extremes differ: the level is
3495 at raw = 0 and 3493 at raw = 4095. -/
theorem C19_levels_below_full_duty (WIDTH HEIGHT : Int) (g : Globals) (raw other : Nat)
    (hraw : raw ≤ 4095) (hpwm : g.toggle_pwm = true) :
    ((main_loop_body WIDTH HEIGHT g raw other).pwm_red ≤ 3495 ∧
      ((main_loop_body WIDTH HEIGHT g raw other).pwm_red = 3495 ↔ raw = 0) ∧
      ((main_loop_body WIDTH HEIGHT g raw other).pwm_red : Int) < PWM_WRAP ∧
      (main_loop_body WIDTH HEIGHT g 0 other).pwm_red = 3495 ∧
      (main_loop_body WIDTH HEIGHT g 4095 other).pwm_red = 3493) ∧
    ((main_loop_body WIDTH HEIGHT g other raw).pwm_blue ≤ 3495 ∧
      ((main_loop_body WIDTH HEIGHT g other raw).pwm_blue = 3495 ↔ raw = 0) ∧
      ((main_loop_body WIDTH HEIGHT g other raw).pwm_blue : Int) < PWM_WRAP ∧
      (main_loop_body WIDTH HEIGHT g other 0).pwm_blue = 3495 ∧
      (main_loop_body WIDTH HEIGHT g other 4095).pwm_blue = 3493) := by
  have hle := axis_level_le raw hraw
  have h0 : axis_level 0 = 3495 := by decide
  have h4095 : axis_level 4095 = 3493 := by decide
  have hiff : axis_level raw = 3495 ↔ raw = 0 := by
    unfold axis_level
    constructor
    · intro h
      split at h
      · omega
      · split at h <;> omega
    · intro h
      rw [h]
      decide
  rw [pwm_red_eq WIDTH HEIGHT g raw other hraw, pwm_red_eq WIDTH HEIGHT g 0 other (by omega),
    pwm_red_eq WIDTH HEIGHT g 4095 other (by omega),
    pwm_blue_eq WIDTH HEIGHT g other raw hraw, pwm_blue_eq WIDTH HEIGHT g other 0 (by omega),
    pwm_blue_eq WIDTH HEIGHT g other 4095 (by omega), hpwm]
  simp only [if_true]
  unfold PWM_WRAP
  exact ⟨⟨hle, hiff, by omega, h0, h4095⟩, ⟨hle, hiff, by omega, h0, h4095⟩⟩

/-- Witness of C19 at raw = 4095 with the initial globals. -/
theorem C19_witness :
    (4095 : Nat) ≤ 4095 ∧ initial_globals.toggle_pwm = true ∧
    (main_loop_body 128 64 initial_globals 4095 2048).pwm_red ≤ 3495 ∧
    (main_loop_body 128 64 initial_globals 0 2048).pwm_red = 3495 ∧
    (main_loop_body 128 64 initial_globals 4095 2048).pwm_red = 3493 :=
  ⟨by decide, rfl,
    (C19_levels_below_full_duty 128 64 initial_globals 4095 2048 (by decide) rfl).1.1,
    (C19_levels_below_full_duty 128 64 initial_globals 4095 2048 (by decide) rfl).1.2.2.2.1,
    (C19_levels_below_full_duty 128 64 initial_globals 4095 2048 (by decide) rfl).1.2.2.2.2⟩

end JoystickRgbDisplay
